import Mathlib

/-
Verification development for the MyFinances authentication views
(backend/core/views/auth/login.py) and the landing-page waitlist endpoint
(backend/api/landing_page/email_waitlist.py).

The Django handlers are embedded as pure Lean functions over an explicit
state: the persisted `VerificationCodes` rows, the audit-log and login-log
tables, the current session and the outbox of sent emails.  Framework
primitives that the source treats as external collaborators (the password
hash, URL resolution, the `next`-URL safety check) are passed in as
abstract function parameters.  Time is a natural-number clock `now`.
-/

namespace MyFinances

/-- A row of the `VerificationCodes` table, as used by `login.py`:
`uuid` is the public identifier, `user` the owner account (by id),
`service` the use-case tag, `token` the stored one-way hash of the
plaintext token, and `expiresAt` the expiry instant. -/
structure VerificationCode where
  uuid : String
  userId : Nat
  service : String
  token : String
  expiresAt : Nat
deriving DecidableEq

/-- Modelled from the spec: `VerificationCodes.is_active` is defined in
`backend/models.py`, which is not among the provided sources.  Spec §3:
a "record is valid only while current time < `expires_at`". -/
def VerificationCode.is_active (now : Nat) (m : VerificationCode) : Bool :=
  now < m.expiresAt

/-- Modelled from the spec: Django's `check_password` is one of the external
collaborators ("password-style one-way hash/compare primitive", spec §6);
the one-way hash itself stays abstract as a parameter `hash`. -/
def check_password (hash : String → String) (raw stored : String) : Bool :=
  hash raw == stored

/-- `is_magiclink_valid` from `login.py` lines 243-253. -/
def is_magiclink_valid (hash : String → String) (now : Nat)
    (magic_link : Option VerificationCode) (token : String) : Bool × String :=
  match magic_link with
  | none => (false, "Invalid magic link")
  | some m =>
    if !(m.is_active now) then (false, "This link has expired")
    else if !(check_password hash token m.token) then (false, "Invalid magic link")
    else (true, "")

/-- `get_magic_link` from `login.py` lines 256-260: the ORM lookup
`VerificationCodes.objects.get(uuid=uuid, service="login")`, with
`DoesNotExist` mapped to `none`. -/
def get_magic_link (links : List VerificationCode) (uuid : String) :
    Option VerificationCode :=
  links.find? (fun m => m.uuid == uuid && m.service == "login")

/-- A row of the `User` table, restricted to the fields `login.py` reads. -/
structure User where
  id : Nat
  email : String
  first_name : String
  is_active : Bool
deriving DecidableEq

/-- An `AuditLog` row created by `AuditLog.objects.create(user=..., action=...)`. -/
structure AuditEntry where
  userId : Nat
  action : String
deriving DecidableEq

/-- A `LoginLog` row created by `LoginLog.objects.create(user=..., service=...)`. -/
structure LoginLogEntry where
  userId : Nat
  service : String
deriving DecidableEq

/-- Modelled from the spec: `LoginLog.ServiceTypes.MAGIC_LINK` is declared in
`backend/models.py`, not among the provided sources; it is the fixed tag for
the magic-link login service. -/
def MAGIC_LINK : String := "magic_link"

/-- An email dispatched by `send_magic_link_email`: the destination address and
the identifier/plaintext-token pair embedded in the verification URL. -/
structure EmailMsg where
  destination : String
  uuid : String
  plainToken : String
deriving DecidableEq

/-- The persistent state the handlers touch: the `VerificationCodes` rows, the
append-only audit log and login log, the session (the logged-in user's id, if
any) and the outbox of sent emails. -/
structure S where
  links : List VerificationCode
  auditLog : List AuditEntry
  loginLog : List LoginLogEntry
  sessionUser : Option Nat
  sentEmails : List EmailMsg
deriving DecidableEq

/-- The observable response of a handler: a plain redirect, a redirect with a
queued message, an htmx toast (error flag plus message), or a rendered
template with its distinguishing context. -/
inductive Resp where
  | redirect (target : String)
  | msgRedirect (isError : Bool) (msg : String) (target : String)
  | toast (isError : Bool) (msg : String)
  | page (template : String) (context : String)
deriving DecidableEq

/-- Modelled from the spec: `create_magic_link` is defined in
`backend/core/views/auth/verify.py`, not among the provided sources.
Spec §4.1: generate a random plaintext token (here the explicit parameter
`plainToken`, with `newUuid` the fresh identifier), hash it, and create a
record with a fixed time-to-live; the plaintext is returned alongside. -/
def create_magic_link (hash : String → String) (now ttl : Nat)
    (newUuid plainToken : String) (userId : Nat) (service : String) :
    VerificationCode × String :=
  ({ uuid := newUuid, userId := userId, service := service,
     token := hash plainToken, expiresAt := now + ttl }, plainToken)

/-- The generic acknowledgment of `MagicLinkRequestView.send_message`. -/
def genericAckMsg : String :=
  "If this is a valid email address, we have sent you an email! Keep this tab open!"

/-- `MagicLinkRequestView.post` from `login.py` lines 112-130.  The fresh
uuid, plaintext token and the record's time-to-live enter as parameters
(they are produced by `create_magic_link`'s randomness and settings). -/
def magicLinkRequest (hash : String → String) (now ttl : Nat)
    (newUuid plainToken : String) (authenticated htmx : Bool)
    (users : List User) (s : S) (email : String) : S × Resp :=
  if authenticated then (s, Resp.redirect "dashboard")
  else if !htmx then (s, Resp.redirect "auth:login")
  else
    match users.find? (fun u => u.email == email) with
    | none => (s, Resp.toast false genericAckMsg)
    | some user =>
      if !user.is_active then
        (s, Resp.toast true "This account is not currently active.")
      else
        let ml := create_magic_link hash now ttl newUuid plainToken user.id "login"
        ({ s with
            links := ml.1 :: s.links,
            sentEmails := { destination := user.email, uuid := ml.1.uuid,
                            plainToken := ml.2 } :: s.sentEmails },
         Resp.page "pages/auth/magic_link_waiting.html" email)

/-- `MagicLinkWaitingView.post` from `login.py` lines 165-171. -/
def magicLinkWaiting (authenticated htmx : Bool) (s : S) (email : String) :
    S × Resp :=
  if authenticated then (s, Resp.redirect "dashboard")
  else if !htmx then (s, Resp.redirect "auth:login")
  else (s, Resp.page "pages/auth/magic_link_waiting.html" email)

/-- The shared read phase of the verify/accept/decline handlers
(`login.py` lines 179-181, 204-205, 224-225): fetch the record and run
`is_magiclink_valid`, yielding the record, the verdict and the message. -/
def magicLinkRead (hash : String → String) (now : Nat)
    (links : List VerificationCode) (uuid token : String) :
    Option VerificationCode × Bool × String :=
  let magic_link := get_magic_link links uuid
  let vm := is_magiclink_valid hash now magic_link token
  (magic_link, vm.1, vm.2)

/-- `MagicLinkVerifyView.get` from `login.py` lines 174-196: on failure it
queues the error message and redirects to the login page; on success it only
renders the confirmation page (the deletion/login code there is commented
out in the source). -/
def magicLinkVerifyView (hash : String → String) (now : Nat)
    (authenticated : Bool) (s : S) (uuid token : String) : S × Resp :=
  if authenticated then (s, Resp.redirect "dashboard")
  else
    let r := magicLinkRead hash now s.links uuid token
    if !r.2.1 then (s, Resp.msgRedirect true r.2.2 "auth:login")
    else (s, Resp.page "pages/auth/magic_link_verify.html" (uuid ++ "/" ++ token))

/-- The effect phase of `MagicLinkVerifyDecline.post` (`login.py` lines
207-216), applied to the read phase's result: on `not valid or magic_link is
None` surface the failure toast; otherwise delete the row, append the
"magic link declined" audit entry and render the declined fragment. -/
def declineResolve (s : S) (magic_link : Option VerificationCode)
    (valid : Bool) (msg : String) : S × Resp :=
  if !valid then (s, Resp.toast true msg)
  else
    match magic_link with
    | none => (s, Resp.toast true msg)
    | some m =>
      ({ s with
          links := s.links.erase m,
          auditLog := { userId := m.userId, action := "magic link declined" }
                        :: s.auditLog },
       Resp.page "pages/auth/_magic_link_partial.html" "declined")

/-- `MagicLinkVerifyDecline.post` from `login.py` lines 199-216. -/
def magicLinkVerifyDecline (hash : String → String) (now : Nat)
    (authenticated htmx : Bool) (s : S) (uuid token : String) : S × Resp :=
  if authenticated || !htmx then (s, Resp.redirect "dashboard")
  else
    let r := magicLinkRead hash now s.links uuid token
    declineResolve s r.1 r.2.1 r.2.2

/-- The effect phase of `MagicLinkVerifyAccept.post` (`login.py` lines
227-240): on `not valid or magic_link is None` surface the failure toast;
otherwise delete the row, append the login-log entry tagged `MAGIC_LINK` and
the "magic link accepted" audit entry, and log the record's owner in. -/
def acceptResolve (s : S) (magic_link : Option VerificationCode)
    (valid : Bool) (msg : String) : S × Resp :=
  if !valid then (s, Resp.toast true msg)
  else
    match magic_link with
    | none => (s, Resp.toast true msg)
    | some m =>
      ({ s with
          links := s.links.erase m,
          loginLog := { userId := m.userId, service := MAGIC_LINK } :: s.loginLog,
          auditLog := { userId := m.userId, action := "magic link accepted" }
                        :: s.auditLog,
          sessionUser := some m.userId },
       Resp.page "pages/auth/_magic_link_partial.html" "accepted")

/-- `MagicLinkVerifyAccept.post` from `login.py` lines 219-240. -/
def magicLinkVerifyAccept (hash : String → String) (now : Nat)
    (authenticated htmx : Bool) (s : S) (uuid token : String) : S × Resp :=
  if authenticated || !htmx then (s, Resp.redirect "dashboard")
  else
    let r := magicLinkRead hash now s.links uuid token
    acceptResolve s r.1 r.2.1 r.2.2

/-- Two accept requests racing on the same record, interleaved as the source
executes them: each handler is a read phase followed by an effect phase, with
no locking between them, so both reads may observe the initial store before
either delete runs.  Returns the final state and both responses. -/
def raceAccepts (hash : String → String) (now : Nat) (s0 : S)
    (uuid token : String) : S × Resp × Resp :=
  let r1 := magicLinkRead hash now s0.links uuid token
  let r2 := magicLinkRead hash now s0.links uuid token
  let p1 := acceptResolve s0 r1.1 r1.2.1 r1.2.2
  let p2 := acceptResolve p1.1 r2.1 r2.2.1 r2.2.2
  (p2.1, p1.2, p2.2)

/-- The redirect decision at the end of `login_manual` (`login.py` lines
81-88), after a successful authentication with no password-change flag:
`url_has_allowed_host_and_scheme` and `resolve` are the framework
collaborators, abstracted as the predicates `allowed` and `resolves`. -/
def login_manual_redirect (allowed resolves : String → Bool)
    (redirect_url : String) : String :=
  if allowed redirect_url then
    if resolves redirect_url then redirect_url else "dashboard"
  else "dashboard"

/-- `redirect_to_login` from `login.py` lines 91-94, with `reverse` modelled
as quoting the route name. -/
def redirect_to_login (allowed : String → Bool) (email redirect_url : String) :
    String :=
  let r := if !(allowed redirect_url) then "dashboard" else redirect_url
  "auth:login?email=" ++ email ++ "&next=" ++ r

/-- An item of the DynamoDB waitlist table written by
`join_waitlist_endpoint`. -/
structure WaitlistItem where
  email : String
  name : String
deriving DecidableEq

/-- The dedented and stripped success fragment of `join_waitlist_endpoint`. -/
def waitlistSuccessContent : String :=
  "<div class=\x27text-success\x27>\n    Successfully registered! Expect some discounts and updates as we progress in our journey :)\n</div>"

/-- `join_waitlist_endpoint` from `email_waitlist.py` lines 13-32: `emailPost`
and `namePost` are the optional POST fields (absent mapped through the
`request.POST.get(..., "")` default); `initiated` is `BOTO3_HANDLER.initiated`;
the result is the waitlist table, the HTTP status and the response body. -/
def join_waitlist_endpoint (initiated : Bool) (store : List WaitlistItem)
    (emailPost namePost : Option String) : List WaitlistItem × Nat × String :=
  let email_address := emailPost.getD ""
  let name := namePost.getD ""
  if email_address == "" then (store, 400, "")
  else if !initiated then (store, 500, "")
  else ({ email := email_address, name := name } :: store, 200,
        waitlistSuccessContent)

/-- The verifier contract exactly as spec §4.2 words it, for comparison with
the source's `is_magiclink_valid` composed with `get_magic_link`:
(1) no record for the identifier with the "login" service tag — invalid, the
generic message; (2) `now >= expires_at` — invalid, the expiry message;
(3) hash of the presented token differs from the stored hash — invalid, the
same generic message as case 1; (4) otherwise valid. -/
def verify_spec (hash : String → String) (now : Nat)
    (links : List VerificationCode) (uuid token : String) : Bool × String :=
  match links.find? (fun m => m.uuid == uuid && m.service == "login") with
  | none => (false, "Invalid magic link")
  | some m =>
    if m.expiresAt ≤ now then (false, "This link has expired")
    else if hash token != m.token then (false, "Invalid magic link")
    else (true, "")

/-- A concrete unexpired `VerificationCodes` row used to instantiate the
theorems: identifier "u1", owner account 7, stored hash of the plaintext
token "tok" (under the identity hash), expiring at instant 100. -/
def wM : VerificationCode :=
  { uuid := "u1", userId := 7, service := "login", token := "tok",
    expiresAt := 100 }

/-- A concrete initial state holding exactly the row `wM`. -/
def wS : S :=
  { links := [wM], auditLog := [], loginLog := [], sessionUser := none,
    sentEmails := [] }

/-- The state left behind by a successful accept of `wM` from `wS`. -/
def wS1 : S :=
  { links := [],
    auditLog := [{ userId := 7, action := "magic link accepted" }],
    loginLog := [{ userId := 7, service := MAGIC_LINK }],
    sessionUser := some 7,
    sentEmails := [] }

/-- A concrete inactive account used to instantiate the issuer theorems. -/
def wInactiveUser : User :=
  { id := 3, email := "ina@example.com", first_name := "Ina",
    is_active := false }

/-- C1: the verifier, given a record identifier and a presented plaintext
token, returns (valid, reason) according to the spec's four-step contract:
no record with the "login" tag — invalid with the generic message; expired
(`now >= expires_at`) — invalid with the expiry message regardless of the
token; wrong token hash — invalid with the same generic message as the
not-found case; otherwise valid. -/
theorem C1_verifier_contract (hash : String → String) (now : Nat)
    (links : List VerificationCode) (uuid token : String) :
    is_magiclink_valid hash now (get_magic_link links uuid) token =
      verify_spec hash now links uuid token := by
  unfold is_magiclink_valid verify_spec get_magic_link
  cases h : links.find? (fun m => m.uuid == uuid && m.service == "login") with
  | none => rfl
  | some m =>
    simp only [VerificationCode.is_active, check_password, bne]
    rcases Nat.lt_or_ge now m.expiresAt with hlt | hge
    · simp [hlt, Nat.not_le.mpr hlt]
    · simp [Nat.not_lt.mpr hge, hge]

/-- Helper: the read phase on a record that passes verification. -/
theorem magicLinkRead_success (hash : String → String) (now : Nat)
    (links : List VerificationCode) (uuid token : String)
    (m : VerificationCode) (hm : get_magic_link links uuid = some m)
    (hv : is_magiclink_valid hash now (some m) token = (true, "")) :
    magicLinkRead hash now links uuid token = (some m, true, "") := by
  simp [magicLinkRead, hm, hv]

/-- Helper: an unauthenticated htmx decline of a record that passes
verification deletes the row and appends the declined audit entry. -/
theorem decline_success (hash : String → String) (now : Nat) (s : S)
    (uuid token : String) (m : VerificationCode)
    (hm : get_magic_link s.links uuid = some m)
    (hv : is_magiclink_valid hash now (some m) token = (true, "")) :
    magicLinkVerifyDecline hash now false true s uuid token =
      ({ s with
          links := s.links.erase m,
          auditLog := { userId := m.userId, action := "magic link declined" }
                        :: s.auditLog },
       Resp.page "pages/auth/_magic_link_partial.html" "declined") := by
  have hr := magicLinkRead_success hash now s.links uuid token m hm hv
  simp [magicLinkVerifyDecline, hr, declineResolve]

/-- Helper: an unauthenticated htmx accept of a record that passes
verification deletes the row, appends the login-log and audit entries, and
logs the owner in. -/
theorem accept_success (hash : String → String) (now : Nat) (s : S)
    (uuid token : String) (m : VerificationCode)
    (hm : get_magic_link s.links uuid = some m)
    (hv : is_magiclink_valid hash now (some m) token = (true, "")) :
    magicLinkVerifyAccept hash now false true s uuid token =
      ({ s with
          links := s.links.erase m,
          loginLog := { userId := m.userId, service := MAGIC_LINK } :: s.loginLog,
          auditLog := { userId := m.userId, action := "magic link accepted" }
                        :: s.auditLog,
          sessionUser := some m.userId },
       Resp.page "pages/auth/_magic_link_partial.html" "accepted") := by
  have hr := magicLinkRead_success hash now s.links uuid token m hm hv
  simp [magicLinkVerifyAccept, hr, acceptResolve]

/-- Helper: when verification fails, decline changes nothing and surfaces
the failure message. -/
theorem decline_invalid (hash : String → String) (now : Nat) (s : S)
    (uuid token : String)
    (hv : (is_magiclink_valid hash now (get_magic_link s.links uuid) token).1
            = false) :
    magicLinkVerifyDecline hash now false true s uuid token =
      (s, Resp.toast true
        (is_magiclink_valid hash now (get_magic_link s.links uuid) token).2) := by
  simp [magicLinkVerifyDecline, magicLinkRead, declineResolve, hv]

/-- Helper: when verification fails, accept changes nothing and surfaces
the failure message. -/
theorem accept_invalid (hash : String → String) (now : Nat) (s : S)
    (uuid token : String)
    (hv : (is_magiclink_valid hash now (get_magic_link s.links uuid) token).1
            = false) :
    magicLinkVerifyAccept hash now false true s uuid token =
      (s, Resp.toast true
        (is_magiclink_valid hash now (get_magic_link s.links uuid) token).2) := by
  simp [magicLinkVerifyAccept, magicLinkRead, acceptResolve, hv]

/-- C2: for every verification record that passes verification, decline
deletes the record, creates an audit-log entry tagged "declined" and never
establishes a session (every other state component, the session included, is
unchanged); accept deletes the record, creates an audit-log entry tagged
"accepted", creates a login-event entry tagged with the magic-link service
and establishes the session for the record's owner account. -/
theorem C2_resolver_effects (hash : String → String) (now : Nat) (s : S)
    (uuid token : String) (m : VerificationCode)
    (hm : get_magic_link s.links uuid = some m)
    (hv : is_magiclink_valid hash now (some m) token = (true, "")) :
    magicLinkVerifyDecline hash now false true s uuid token =
      ({ s with
          links := s.links.erase m,
          auditLog := { userId := m.userId, action := "magic link declined" }
                        :: s.auditLog },
       Resp.page "pages/auth/_magic_link_partial.html" "declined")
    ∧ magicLinkVerifyAccept hash now false true s uuid token =
      ({ s with
          links := s.links.erase m,
          loginLog := { userId := m.userId, service := MAGIC_LINK } :: s.loginLog,
          auditLog := { userId := m.userId, action := "magic link accepted" }
                        :: s.auditLog,
          sessionUser := some m.userId },
       Resp.page "pages/auth/_magic_link_partial.html" "accepted") :=
  ⟨decline_success hash now s uuid token m hm hv,
   accept_success hash now s uuid token m hm hv⟩

/-- Witness for C2 at the concrete store `wS` and record `wM`. -/
theorem C2_resolver_effects_witness :
    magicLinkVerifyDecline (fun x => x) 0 false true wS "u1" "tok" =
      ({ wS with
          links := [],
          auditLog := [{ userId := 7, action := "magic link declined" }] },
       Resp.page "pages/auth/_magic_link_partial.html" "declined")
    ∧ magicLinkVerifyAccept (fun x => x) 0 false true wS "u1" "tok" =
      ({ wS with
          links := [],
          loginLog := [{ userId := 7, service := MAGIC_LINK }],
          auditLog := [{ userId := 7, action := "magic link accepted" }],
          sessionUser := some 7 },
       Resp.page "pages/auth/_magic_link_partial.html" "accepted") := by
  have h := C2_resolver_effects (fun x => x) 0 wS "u1" "tok" wM (by decide)
    (by decide)
  exact ⟨by rw [h.1]; decide, by rw [h.2]; decide⟩

/-- C3: for every accept or decline request in which the record is missing
or verification fails, no state change occurs — the returned state equals
the input state (no deletion, no session, no audit-log or login-event
entry) — and only the failure message is surfaced as an error toast. -/
theorem C3_failed_verification_no_effects (hash : String → String) (now : Nat)
    (s : S) (uuid token : String)
    (hv : (is_magiclink_valid hash now (get_magic_link s.links uuid) token).1
            = false) :
    magicLinkVerifyDecline hash now false true s uuid token =
      (s, Resp.toast true
        (is_magiclink_valid hash now (get_magic_link s.links uuid) token).2)
    ∧ magicLinkVerifyAccept hash now false true s uuid token =
      (s, Resp.toast true
        (is_magiclink_valid hash now (get_magic_link s.links uuid) token).2) :=
  ⟨decline_invalid hash now s uuid token hv,
   accept_invalid hash now s uuid token hv⟩

/-- Witness for C3: a wrong token for the stored record of `wS`. -/
theorem C3_failed_verification_no_effects_witness :
    magicLinkVerifyDecline (fun x => x) 0 false true wS "u1" "wrong" =
      (wS, Resp.toast true "Invalid magic link")
    ∧ magicLinkVerifyAccept (fun x => x) 0 false true wS "u1" "wrong" =
      (wS, Resp.toast true "Invalid magic link") := by
  have h := C3_failed_verification_no_effects (fun x => x) 0 wS "u1" "wrong"
    (by decide)
  exact ⟨by rw [h.1]; decide, by rw [h.2]; decide⟩

/-- Helper: erasing the row found by `get_magic_link` from a store whose
identifiers are pairwise distinct makes the lookup come back empty. -/
theorem get_magic_link_erase (links : List VerificationCode)
    (m : VerificationCode) (uuid : String)
    (hm : get_magic_link links uuid = some m)
    (hnd : (links.map (fun x => x.uuid)).Nodup) :
    get_magic_link (links.erase m) uuid = none := by
  have hm' : links.find? (fun x => x.uuid == uuid && x.service == "login")
      = some m := hm
  have hmem : m ∈ links := List.mem_of_find?_eq_some hm'
  have hpm := List.find?_some hm'
  have hnd' : links.Nodup := hnd.of_map
  simp only [Bool.and_eq_true, beq_iff_eq] at hpm
  rw [get_magic_link, List.find?_eq_none]
  intro x hx hpx
  simp only [Bool.and_eq_true, beq_iff_eq] at hpx
  rcases (hnd'.mem_erase_iff).1 hx with ⟨hne, hxl⟩
  exact hne (List.inj_on_of_nodup_map hnd hxl hmem (by rw [hpx.1, hpm.1]))

/-- Helper: accept on an identifier with no row changes nothing and surfaces
the generic message. -/
theorem accept_gone (hash : String → String) (now : Nat) (s : S)
    (uuid token : String) (h : get_magic_link s.links uuid = none) :
    magicLinkVerifyAccept hash now false true s uuid token =
      (s, Resp.toast true "Invalid magic link") := by
  have hx := accept_invalid hash now s uuid token (by rw [h]; rfl)
  rw [hx, h]; rfl

/-- Helper: decline on an identifier with no row changes nothing and
surfaces the generic message. -/
theorem decline_gone (hash : String → String) (now : Nat) (s : S)
    (uuid token : String) (h : get_magic_link s.links uuid = none) :
    magicLinkVerifyDecline hash now false true s uuid token =
      (s, Resp.toast true "Invalid magic link") := by
  have hx := decline_invalid hash now s uuid token (by rw [h]; rfl)
  rw [hx, h]; rfl

/-- Helper: the verification page on an identifier with no row changes
nothing and redirects with the generic message. -/
theorem view_gone (hash : String → String) (now : Nat) (s : S)
    (uuid token : String) (h : get_magic_link s.links uuid = none) :
    magicLinkVerifyView hash now false s uuid token =
      (s, Resp.msgRedirect true "Invalid magic link" "auth:login") := by
  simp [magicLinkVerifyView, magicLinkRead, h, is_magiclink_valid]

/-- C4: every verification record is single-use — once an accept or a
decline has deleted it (identifiers being unique in the store), every
subsequent verify, accept, or decline on the same identifier, at any later
clock and with any token, returns invalid with the generic
"Invalid magic link" message (never the expiry message and no distinct
re-use message) and performs no further state change. -/
theorem C4_single_use (hash : String → String) (now now2 : Nat) (s : S)
    (uuid token : String) (m : VerificationCode)
    (hm : get_magic_link s.links uuid = some m)
    (hv : is_magiclink_valid hash now (some m) token = (true, ""))
    (hnd : (s.links.map (fun x => x.uuid)).Nodup) :
    ∀ t : S,
      (t = (magicLinkVerifyAccept hash now false true s uuid token).1
        ∨ t = (magicLinkVerifyDecline hash now false true s uuid token).1) →
      ∀ token2 : String,
        is_magiclink_valid hash now2 (get_magic_link t.links uuid) token2
            = (false, "Invalid magic link")
        ∧ magicLinkVerifyAccept hash now2 false true t uuid token2
            = (t, Resp.toast true "Invalid magic link")
        ∧ magicLinkVerifyDecline hash now2 false true t uuid token2
            = (t, Resp.toast true "Invalid magic link")
        ∧ magicLinkVerifyView hash now2 false t uuid token2
            = (t, Resp.msgRedirect true "Invalid magic link" "auth:login") := by
  intro t ht token2
  have hlinks : t.links = s.links.erase m := by
    rcases ht with h | h
    · rw [h, accept_success hash now s uuid token m hm hv]
    · rw [h, decline_success hash now s uuid token m hm hv]
  have hgone : get_magic_link t.links uuid = none := by
    rw [hlinks]; exact get_magic_link_erase s.links m uuid hm hnd
  exact ⟨by rw [hgone]; rfl, accept_gone hash now2 t uuid token2 hgone,
    decline_gone hash now2 t uuid token2 hgone,
    view_gone hash now2 t uuid token2 hgone⟩

/-- Witness for C4: after accepting `wM` from `wS`, all later operations on
identifier "u1" — here at clock 500, past the record's old expiry — fail
with the generic message and change nothing. -/
theorem C4_single_use_witness :
    is_magiclink_valid (fun x => x) 500 (get_magic_link wS1.links "u1") "tok"
        = (false, "Invalid magic link")
    ∧ magicLinkVerifyAccept (fun x => x) 500 false true wS1 "u1" "tok"
        = (wS1, Resp.toast true "Invalid magic link")
    ∧ magicLinkVerifyDecline (fun x => x) 500 false true wS1 "u1" "tok"
        = (wS1, Resp.toast true "Invalid magic link")
    ∧ magicLinkVerifyView (fun x => x) 500 false wS1 "u1" "tok"
        = (wS1, Resp.msgRedirect true "Invalid magic link" "auth:login") :=
  C4_single_use (fun x => x) 0 500 wS "u1" "tok" wM (by decide) (by decide)
    (by decide) wS1 (Or.inl (by decide)) "tok"

/-- C5: the issuer's failure paths create no verification record and send no
email — the state is returned untouched: an email matching no account gets
the generic success acknowledgment (not revealing that the email is
unregistered); an email matching an inactive account gets the distinct
"not active" failure message. -/
theorem C5_issuer_failure_paths (hash : String → String) (now ttl : Nat)
    (newUuid plainToken : String) (users : List User) (s : S)
    (email : String) :
    (users.find? (fun u => u.email == email) = none →
      magicLinkRequest hash now ttl newUuid plainToken false true users s email
        = (s, Resp.toast false genericAckMsg))
    ∧ (∀ u : User, users.find? (fun u => u.email == email) = some u →
        u.is_active = false →
        magicLinkRequest hash now ttl newUuid plainToken false true users s email
          = (s, Resp.toast true "This account is not currently active.")) := by
  constructor
  · intro h
    simp [magicLinkRequest, h]
  · intro u hu hi
    simp [magicLinkRequest, hu, hi]

/-- Witness for C5: an unknown address against an empty account table, and
the inactive account `wInactiveUser`. -/
theorem C5_issuer_failure_paths_witness :
    magicLinkRequest (fun x => x) 0 60 "u9" "tk" false true [] wS "a@b.com"
        = (wS, Resp.toast false genericAckMsg)
    ∧ magicLinkRequest (fun x => x) 0 60 "u9" "tk" false true [wInactiveUser]
        wS "ina@example.com"
        = (wS, Resp.toast true "This account is not currently active.") :=
  ⟨(C5_issuer_failure_paths (fun x => x) 0 60 "u9" "tk" [] wS "a@b.com").1 rfl,
   (C5_issuer_failure_paths (fun x => x) 0 60 "u9" "tk" [wInactiveUser] wS
      "ina@example.com").2 wInactiveUser (by decide) (by decide)⟩

/-- C6: the verifier is side-effect-free and idempotent — the
verification-page view returns its state unchanged (no record mutated, no
session, no log entry), and running it again on the state it returned gives
the same state and response, since `is_magiclink_valid` is a pure function
of the stored record, the clock and the token. -/
theorem C6_verifier_idempotent (hash : String → String) (now : Nat)
    (authenticated : Bool) (s : S) (uuid token : String) :
    (magicLinkVerifyView hash now authenticated s uuid token).1 = s
    ∧ magicLinkVerifyView hash now authenticated
        (magicLinkVerifyView hash now authenticated s uuid token).1 uuid token
      = magicLinkVerifyView hash now authenticated s uuid token := by
  have h1 : (magicLinkVerifyView hash now authenticated s uuid token).1 = s := by
    cases authenticated
    · cases h : (magicLinkRead hash now s.links uuid token).2.1
      · simp [magicLinkVerifyView, h]
      · simp [magicLinkVerifyView, h]
    · rfl
  exact ⟨h1, by rw [h1]⟩

/-- C7: the spec requires that of two racing accepts at most one succeed,
the second observing the record already gone — which needs the consume step
to be an atomic delete.  The source instead re-reads then deletes: in the
interleaving where both requests run their read phase before either effect
phase, both accepts succeed, both render the accepted fragment and two
login-event entries are written for the same record. -/
theorem C7_race_both_accepts_succeed :
    (raceAccepts (fun x => x) 0 wS "u1" "tok").2.1
        = Resp.page "pages/auth/_magic_link_partial.html" "accepted"
    ∧ (raceAccepts (fun x => x) 0 wS "u1" "tok").2.2
        = Resp.page "pages/auth/_magic_link_partial.html" "accepted"
    ∧ (raceAccepts (fun x => x) 0 wS "u1" "tok").1.loginLog
        = [{ userId := 7, service := MAGIC_LINK },
           { userId := 7, service := MAGIC_LINK }] :=
  ⟨rfl, rfl, rfl⟩

/-- C8: after a successful password authentication, `login_manual` redirects
to the `next` value exactly when it has an allowed host and scheme and
resolves to a known route, and to the dashboard for every other value; and
`redirect_to_login` replaces any disallowed `next` value with the dashboard
URL in the login redirect it builds. -/
theorem C8_next_url_sanitization (allowed resolves : String → Bool)
    (redirect_url email : String) :
    login_manual_redirect allowed resolves redirect_url
        = (if allowed redirect_url && resolves redirect_url then redirect_url
           else "dashboard")
    ∧ redirect_to_login allowed email redirect_url
        = "auth:login?email=" ++ email ++ "&next="
            ++ (if allowed redirect_url then redirect_url else "dashboard") := by
  constructor
  · cases h1 : allowed redirect_url <;> cases h2 : resolves redirect_url <;>
      simp [login_manual_redirect, h1, h2]
  · cases h1 : allowed redirect_url <;> simp [redirect_to_login, h1]

/-- C9: every magic-link endpoint — request, waiting page, verify page,
accept, decline — immediately redirects an already-authenticated user to
the dashboard with the state untouched (no record read into effects,
deleted or created; no session or log entry written). -/
theorem C9_authenticated_user_redirected (hash : String → String)
    (now ttl : Nat) (newUuid plainToken : String) (htmx : Bool)
    (users : List User) (s : S) (email uuid token : String) :
    magicLinkRequest hash now ttl newUuid plainToken true htmx users s email
        = (s, Resp.redirect "dashboard")
    ∧ magicLinkWaiting true htmx s email = (s, Resp.redirect "dashboard")
    ∧ magicLinkVerifyView hash now true s uuid token
        = (s, Resp.redirect "dashboard")
    ∧ magicLinkVerifyAccept hash now true htmx s uuid token
        = (s, Resp.redirect "dashboard")
    ∧ magicLinkVerifyDecline hash now true htmx s uuid token
        = (s, Resp.redirect "dashboard") :=
  ⟨rfl, rfl, rfl, rfl, rfl⟩

/-- C10: the waitlist endpoint returns 400 and stores nothing when the
submitted email is empty or absent, returns 500 and stores nothing when the
storage handler is not initiated, and otherwise stores exactly one item with
the submitted email and name (name defaulting to the empty string) and
returns 200 with the success message. -/
theorem C10_waitlist_contract (initiated : Bool) (store : List WaitlistItem)
    (emailPost namePost : Option String) :
    (emailPost.getD "" = "" →
      join_waitlist_endpoint initiated store emailPost namePost
        = (store, 400, ""))
    ∧ (emailPost.getD "" ≠ "" → initiated = false →
      join_waitlist_endpoint initiated store emailPost namePost
        = (store, 500, ""))
    ∧ (emailPost.getD "" ≠ "" → initiated = true →
      join_waitlist_endpoint initiated store emailPost namePost
        = ({ email := emailPost.getD "", name := namePost.getD "" } :: store,
           200, waitlistSuccessContent)) := by
  refine ⟨fun h => ?_, fun h hi => ?_, fun h hi => ?_⟩
  · simp [join_waitlist_endpoint, h]
  · subst hi; simp [join_waitlist_endpoint, h]
  · subst hi; simp [join_waitlist_endpoint, h]

/-- Witness for C10 covering all three outcomes. -/
theorem C10_waitlist_contract_witness :
    join_waitlist_endpoint true [] (some "") (some "Bo") = ([], 400, "")
    ∧ join_waitlist_endpoint false [] (some "a@b.com") none = ([], 500, "")
    ∧ join_waitlist_endpoint true [] (some "a@b.com") none
        = ([{ email := "a@b.com", name := "" }], 200,
           waitlistSuccessContent) :=
  ⟨(C10_waitlist_contract true [] (some "") (some "Bo")).1 rfl,
   (C10_waitlist_contract false [] (some "a@b.com") none).2.1 (by decide) rfl,
   (C10_waitlist_contract true [] (some "a@b.com") none).2.2 (by decide) rfl⟩

end MyFinances
